import Mathlib

/-!
Verification of the landmark-to-skeleton retargeting core of the
gesture-weaver repository (a TypeScript hand/arm motion-capture
visualizer).  The definitions below are shallow embeddings of the
relevant source functions:

* `src/types/hand-data.ts` — `isHandVisible`, `normalizeCoordinates`,
  `parseCSVRow` (arm-aware variant, `src/unnamed/part_000`);
* `src/hooks/useSignAnimation.ts` — `downloadCSV` (the tabular export)
  and the `animate` playback tick;
* `src/components/Avatar3D.tsx` — `solveArmIK`, `AVATAR_CONFIG`,
  `FINGER_LANDMARKS`, the finger-pose landmark accesses, and
  `THREE.MathUtils.lerp` smoothing.

Scalar values are modelled exactly: `ℚ` for the purely algebraic parts
(coordinate transforms, CSV cells, smoothing) and `ℝ` for the parts
that use square roots and inverse trigonometric functions (the IK
solver).  JavaScript's `Math`/`THREE.MathUtils` helpers are embedded by
their mathematical definitions (`atan2`, `clamp`, vector `normalize`
with three.js's zero-length guard `length || 1`).
-/

namespace GestureWeaver

/-- One landmark: an `(x, y, z)` coordinate triple. -/
abbrev Landmark : Type := ℚ × ℚ × ℚ

/-- Embedding of `isHandVisible` (src/types/hand-data.ts lines 106-110):
`null`/empty input is not visible; otherwise some landmark must have a
non-zero `x` or a non-zero `y` (`z` is never inspected). -/
def isHandVisible : Option (List Landmark) → Bool
  | none => false
  | some landmarks =>
    if landmarks.length = 0 then false
    else landmarks.any (fun p => decide (p.1 ≠ 0) || decide (p.2.1 ≠ 0))

/-- Embedding of `normalizeCoordinates` (src/types/hand-data.ts lines
91-104): `null`/empty input maps to the empty list, otherwise each point
`(x, y, z)` maps to `((1 - x - 0.5)·s, (1 - y - 0.5)·s, -z·s)`. -/
def normalizeCoordinates : Option (List Landmark) → ℚ → List Landmark
  | none, _ => []
  | some landmarks, scale =>
    if landmarks.length = 0 then []
    else landmarks.map (fun p =>
      ((1 - p.1 - 1/2) * scale, (1 - p.2.1 - 1/2) * scale, -p.2.2 * scale))

/-- Embedding of `THREE.MathUtils.lerp(x, y, t) = (1 - t) * x + t * y`,
the smoothing primitive used for every joint scalar in
`MixamoAvatar.useFrame` (src/components/Avatar3D.tsx lines 602-634). -/
def lerp (x y t : ℚ) : ℚ := (1 - t) * x + t * y

/-- Iterated smoothing toward a constant target: `smoothIter f target n
start` applies `x ↦ lerp x target f` to `start`, `n` times. -/
def smoothIter (factor target : ℚ) (n : ℕ) (start : ℚ) : ℚ :=
  (fun x => lerp x target factor)^[n] start

/-- Embedding of the playback tick (src/hooks/useSignAnimation.ts lines
180-192): `next = prev + 1`, returning `0` when `next >= frames.length`
(loop) and `next` otherwise. -/
def advanceFrame (len cursor : ℕ) : ℕ :=
  if len ≤ cursor + 1 then 0 else cursor + 1

/-- Finger names, indexing `FINGER_LANDMARKS`
(src/components/Avatar3D.tsx lines 40-46). -/
inductive Finger : Type
  | thumb | index | middle | ring | pinky
deriving DecidableEq, Repr

/-- Embedding of `FINGER_LANDMARKS` (src/components/Avatar3D.tsx lines
40-46): the four landmark indices of each finger. -/
def FINGER_LANDMARKS : Finger → List ℕ
  | Finger.thumb => [1, 2, 3, 4]
  | Finger.index => [5, 6, 7, 8]
  | Finger.middle => [9, 10, 11, 12]
  | Finger.ring => [13, 14, 15, 16]
  | Finger.pinky => [17, 18, 19, 20]

/-- Landmark indices read by `calculateFingerCurl`
(src/components/Avatar3D.tsx lines 68-110): the four indices of the
finger (`landmarks[indices[0..3]]`), plus the wrist `landmarks[0]` and
the middle-finger base `landmarks[9]` used as the palm reference. -/
def fingerCurlReads (finger : Finger) : List ℕ :=
  FINGER_LANDMARKS finger ++ [0, 9]

/-- Landmark indices read by `calculateThumbAbduction`
(src/components/Avatar3D.tsx lines 113-153): wrist 0, thumb CMC 1,
thumb MCP 2, index MCP 5, pinky MCP 17, middle MCP 9. -/
def thumbAbductionReads : List ℕ := [0, 1, 2, 5, 17, 9]

/-- Landmark indices read by `calculateFingerSpread`
(src/components/Avatar3D.tsx lines 156-217): the MCP bases 5, 9, 13,
17, the tips 8, 12, 16, 20, and the wrist 0. -/
def fingerSpreadReads : List ℕ := [5, 9, 13, 17, 8, 12, 16, 20, 0]

/-- All landmark indices read by the three finger-pose estimators. -/
def allFingerReads : List ℕ :=
  (fingerCurlReads Finger.thumb ++ fingerCurlReads Finger.index ++
   fingerCurlReads Finger.middle ++ fingerCurlReads Finger.ring ++
   fingerCurlReads Finger.pinky) ++ thumbAbductionReads ++ fingerSpreadReads

/-! ### The tabular (CSV) frame format

`downloadCSV` (src/hooks/useSignAnimation.ts lines 95-167) writes one
header row and one row per frame; `parseCSVRow`
(src/unnamed/part_000 lines 36-81) reads a row back by column name
(PapaParse `header: true`).  A row is modelled as its label plus a
partial map from column name to numeric cell; a column name absent from
the file maps to `none` (JavaScript `undefined`). -/

/-- An optional `{shoulder, elbow, wrist}` arm-landmark triple
(`ArmLandmarks`, src/unnamed/part_000 lines 1-5). -/
structure ArmLandmarks where
  shoulder : Landmark
  elbow : Landmark
  wrist : Landmark
deriving DecidableEq, Repr

/-- A `HandFrame` (src/unnamed/part_000 lines 7-13): label, the two
hand landmark lists, and the optional arm triples. -/
structure HandFrame where
  label : String
  leftHand : List Landmark
  rightHand : List Landmark
  leftArm : Option ArmLandmarks
  rightArm : Option ArmLandmarks
deriving DecidableEq, Repr

/-- The column names of the tabular format, one constructor per name:
`L_x{i}`, `L_y{i}`, `L_z{i}`, `R_x{i}`, `R_y{i}`, `R_z{i}`, and the 18
arm columns `LA_shoulder_x` … `RA_wrist_z`. -/
inductive ColKey : Type
  | Lx (i : ℕ) | Ly (i : ℕ) | Lz (i : ℕ)
  | Rx (i : ℕ) | Ry (i : ℕ) | Rz (i : ℕ)
  | LAshoulderX | LAshoulderY | LAshoulderZ
  | LAelbowX | LAelbowY | LAelbowZ
  | LAwristX | LAwristY | LAwristZ
  | RAshoulderX | RAshoulderY | RAshoulderZ
  | RAelbowX | RAelbowY | RAelbowZ
  | RAwristX | RAwristY | RAwristZ
deriving DecidableEq, Repr

/-- One parsed CSV data row: the label cell plus the numeric cells,
keyed by column name (`none` = the column is absent from the file). -/
structure CSVRow where
  label : String
  cells : ColKey → Option ℚ

/-- The all-zero landmark used when the export zero-fills a missing
hand entry. -/
def zeroLandmark : Landmark := (0, 0, 0)

/-- Cells written by `downloadCSV` (src/hooks/useSignAnimation.ts lines
114-155) for one frame.  Hand columns exist for `i < 21` and hold the
frame's landmark, or `0` when the entry is missing; the 18 arm columns
are always written, zero-filled when the arm is absent. -/
def exportCells (f : HandFrame) : ColKey → Option ℚ
  | ColKey.Lx i => if i < 21 then some ((f.leftHand[i]?.getD zeroLandmark).1) else none
  | ColKey.Ly i => if i < 21 then some ((f.leftHand[i]?.getD zeroLandmark).2.1) else none
  | ColKey.Lz i => if i < 21 then some ((f.leftHand[i]?.getD zeroLandmark).2.2) else none
  | ColKey.Rx i => if i < 21 then some ((f.rightHand[i]?.getD zeroLandmark).1) else none
  | ColKey.Ry i => if i < 21 then some ((f.rightHand[i]?.getD zeroLandmark).2.1) else none
  | ColKey.Rz i => if i < 21 then some ((f.rightHand[i]?.getD zeroLandmark).2.2) else none
  | ColKey.LAshoulderX => some ((f.leftArm.map (fun a => a.shoulder.1)).getD 0)
  | ColKey.LAshoulderY => some ((f.leftArm.map (fun a => a.shoulder.2.1)).getD 0)
  | ColKey.LAshoulderZ => some ((f.leftArm.map (fun a => a.shoulder.2.2)).getD 0)
  | ColKey.LAelbowX => some ((f.leftArm.map (fun a => a.elbow.1)).getD 0)
  | ColKey.LAelbowY => some ((f.leftArm.map (fun a => a.elbow.2.1)).getD 0)
  | ColKey.LAelbowZ => some ((f.leftArm.map (fun a => a.elbow.2.2)).getD 0)
  | ColKey.LAwristX => some ((f.leftArm.map (fun a => a.wrist.1)).getD 0)
  | ColKey.LAwristY => some ((f.leftArm.map (fun a => a.wrist.2.1)).getD 0)
  | ColKey.LAwristZ => some ((f.leftArm.map (fun a => a.wrist.2.2)).getD 0)
  | ColKey.RAshoulderX => some ((f.rightArm.map (fun a => a.shoulder.1)).getD 0)
  | ColKey.RAshoulderY => some ((f.rightArm.map (fun a => a.shoulder.2.1)).getD 0)
  | ColKey.RAshoulderZ => some ((f.rightArm.map (fun a => a.shoulder.2.2)).getD 0)
  | ColKey.RAelbowX => some ((f.rightArm.map (fun a => a.elbow.1)).getD 0)
  | ColKey.RAelbowY => some ((f.rightArm.map (fun a => a.elbow.2.1)).getD 0)
  | ColKey.RAelbowZ => some ((f.rightArm.map (fun a => a.elbow.2.2)).getD 0)
  | ColKey.RAwristX => some ((f.rightArm.map (fun a => a.wrist.1)).getD 0)
  | ColKey.RAwristY => some ((f.rightArm.map (fun a => a.wrist.2.1)).getD 0)
  | ColKey.RAwristZ => some ((f.rightArm.map (fun a => a.wrist.2.2)).getD 0)

/-- The full export of one frame as a CSV row. -/
def exportRow (f : HandFrame) : CSVRow :=
  { label := f.label, cells := exportCells f }

/-- `Number(row[key]) || 0`: an absent cell (`undefined`, hence `NaN`)
coerces to `0`; a present cell keeps its value (a present `0` is `0`
either way). -/
def numOr0 (o : Option ℚ) : ℚ := o.getD 0

/-- Embedding of `parseCSVRow` (src/unnamed/part_000 lines 36-81):
reads 21 landmark triples per hand with missing cells defaulting to
`0`, and an arm triple exactly when the `LA_shoulder_x` /
`RA_shoulder_x` column is present (`!== undefined`). -/
def parseCSVRow (r : CSVRow) : HandFrame :=
  { label := r.label
    leftHand := (List.range 21).map (fun i =>
      (numOr0 (r.cells (ColKey.Lx i)), numOr0 (r.cells (ColKey.Ly i)),
       numOr0 (r.cells (ColKey.Lz i))))
    rightHand := (List.range 21).map (fun i =>
      (numOr0 (r.cells (ColKey.Rx i)), numOr0 (r.cells (ColKey.Ry i)),
       numOr0 (r.cells (ColKey.Rz i))))
    leftArm :=
      if r.cells ColKey.LAshoulderX ≠ none then
        some { shoulder := (numOr0 (r.cells ColKey.LAshoulderX),
                            numOr0 (r.cells ColKey.LAshoulderY),
                            numOr0 (r.cells ColKey.LAshoulderZ))
               elbow := (numOr0 (r.cells ColKey.LAelbowX),
                         numOr0 (r.cells ColKey.LAelbowY),
                         numOr0 (r.cells ColKey.LAelbowZ))
               wrist := (numOr0 (r.cells ColKey.LAwristX),
                         numOr0 (r.cells ColKey.LAwristY),
                         numOr0 (r.cells ColKey.LAwristZ)) }
      else none
    rightArm :=
      if r.cells ColKey.RAshoulderX ≠ none then
        some { shoulder := (numOr0 (r.cells ColKey.RAshoulderX),
                            numOr0 (r.cells ColKey.RAshoulderY),
                            numOr0 (r.cells ColKey.RAshoulderZ))
               elbow := (numOr0 (r.cells ColKey.RAelbowX),
                         numOr0 (r.cells ColKey.RAelbowY),
                         numOr0 (r.cells ColKey.RAelbowZ))
               wrist := (numOr0 (r.cells ColKey.RAwristX),
                         numOr0 (r.cells ColKey.RAwristY),
                         numOr0 (r.cells ColKey.RAwristZ)) }
      else none }

/-- Write-then-read of one frame through the tabular format. -/
def roundTrip (f : HandFrame) : HandFrame := parseCSVRow (exportRow f)

/-- The all-zero arm triple produced by re-parsing a zero-filled arm. -/
def zeroArm : ArmLandmarks :=
  { shoulder := zeroLandmark, elbow := zeroLandmark, wrist := zeroLandmark }

/-! ### The two-bone arm IK solver

`solveArmIK` (src/components/Avatar3D.tsx lines 414-485; an identical
copy at src/unnamed/part_003 lines 99-170) works on `THREE.Vector3` and
`Math`/`THREE.MathUtils` float operations; it is embedded over `ℝ`. -/

/-- A 3D vector (`THREE.Vector3`). -/
structure Vec3 where
  x : ℝ
  y : ℝ
  z : ℝ

/-- `THREE.Vector3.subVectors`. -/
def subV (a b : Vec3) : Vec3 := ⟨a.x - b.x, a.y - b.y, a.z - b.z⟩

/-- `THREE.Vector3.length`. -/
noncomputable def lengthV (v : Vec3) : ℝ :=
  Real.sqrt (v.x ^ 2 + v.y ^ 2 + v.z ^ 2)

/-- `THREE.Vector3.normalize`, which divides by `length || 1`: the zero
vector is left unchanged rather than producing a division by zero. -/
noncomputable def normalizeV (v : Vec3) : Vec3 :=
  let d : ℝ := if lengthV v = 0 then 1 else lengthV v
  ⟨v.x / d, v.y / d, v.z / d⟩

/-- `THREE.MathUtils.clamp(value, lo, hi) = max(lo, min(hi, value))`. -/
noncomputable def clamp (value lo hi : ℝ) : ℝ := max lo (min hi value)

/-- JavaScript `Math.atan2(y, x)`. -/
noncomputable def atan2 (y x : ℝ) : ℝ :=
  if 0 < x then Real.arctan (y / x)
  else if x < 0 then
    (if 0 ≤ y then Real.arctan (y / x) + Real.pi
     else Real.arctan (y / x) - Real.pi)
  else if 0 < y then Real.pi / 2
  else if y < 0 then -(Real.pi / 2)
  else 0

/-- An Euler rotation (the `'XYZ'`-order `THREE.Euler` the solver
returns): three per-axis angle components. -/
structure Euler where
  x : ℝ
  y : ℝ
  z : ℝ

/-- The solver's result record. -/
structure ArmIK where
  upperArmRotation : Euler
  forearmRotation : Euler
  handRotation : Euler

/-- The rig configuration `AVATAR_CONFIG`
(src/components/Avatar3D.tsx lines 371-377). -/
structure AvatarConfig where
  shoulderWidth : ℝ
  shoulderHeight : ℝ
  upperArmLength : ℝ
  forearmLength : ℝ
  handReachScale : ℝ

/-- `AVATAR_CONFIG` values. -/
noncomputable def AVATAR_CONFIG : AvatarConfig :=
  { shoulderWidth := 0.18
    shoulderHeight := 0.35
    upperArmLength := 0.28
    forearmLength := 0.25
    handReachScale := 1.2 }

/-- The shoulder position used by `solveArmIK`:
`(±shoulderWidth, shoulderHeight, 0)`, negated `x` for the left arm. -/
noncomputable def ikShoulderPos (isLeftArm : Bool) : Vec3 :=
  ⟨if isLeftArm then -AVATAR_CONFIG.shoulderWidth else AVATAR_CONFIG.shoulderWidth,
   AVATAR_CONFIG.shoulderHeight, 0⟩

/-- The unclamped shoulder-to-target distance in `solveArmIK`. -/
noncomputable def ikRawDistance (targetPos : Vec3) (isLeftArm : Bool) : ℝ :=
  lengthV (subV targetPos (ikShoulderPos isLeftArm))

/-- The clamped distance actually used by the law-of-cosines steps:
`clamp(distance, |upperLen - lowerLen| * 0.5, (upperLen + lowerLen) * 0.95)`
(src/components/Avatar3D.tsx lines 431-434). -/
noncomputable def ikDistance (targetPos : Vec3) (isLeftArm : Bool) : ℝ :=
  clamp (ikRawDistance targetPos isLeftArm)
    (|AVATAR_CONFIG.upperArmLength - AVATAR_CONFIG.forearmLength| * 0.5)
    ((AVATAR_CONFIG.upperArmLength + AVATAR_CONFIG.forearmLength) * 0.95)

/-- The normalized shoulder-to-target direction in `solveArmIK`. -/
noncomputable def ikDirection (targetPos : Vec3) (isLeftArm : Bool) : Vec3 :=
  normalizeV (subV targetPos (ikShoulderPos isLeftArm))

/-- The elbow interior angle of `solveArmIK`:
`acos(clamp((u² + l² - d²)/(2·u·l), -1, 1))` at the clamped distance. -/
noncomputable def ikElbowAngle (targetPos : Vec3) (isLeftArm : Bool) : ℝ :=
  Real.arccos (clamp
    ((AVATAR_CONFIG.upperArmLength ^ 2 + AVATAR_CONFIG.forearmLength ^ 2 -
        ikDistance targetPos isLeftArm ^ 2) /
      (2 * AVATAR_CONFIG.upperArmLength * AVATAR_CONFIG.forearmLength))
    (-1) 1)

/-- The shoulder offset angle of `solveArmIK`:
`acos(clamp((u² + d² - l²)/(2·u·d), -1, 1))` at the clamped distance. -/
noncomputable def ikShoulderAngle (targetPos : Vec3) (isLeftArm : Bool) : ℝ :=
  Real.arccos (clamp
    ((AVATAR_CONFIG.upperArmLength ^ 2 + ikDistance targetPos isLeftArm ^ 2 -
        AVATAR_CONFIG.forearmLength ^ 2) /
      (2 * AVATAR_CONFIG.upperArmLength * ikDistance targetPos isLeftArm))
    (-1) 1)

/-- The pitch of the shoulder-to-target direction:
`asin(clamp(-direction.y, -1, 1))`. -/
noncomputable def ikPitch (targetPos : Vec3) (isLeftArm : Bool) : ℝ :=
  Real.arcsin (clamp (-(ikDirection targetPos isLeftArm).y) (-1) 1)

/-- The yaw of the shoulder-to-target direction:
`atan2(|direction.z|, sqrt(direction.x² + direction.z²)) * 0.6`. -/
noncomputable def ikYaw (targetPos : Vec3) (isLeftArm : Bool) : ℝ :=
  atan2 |(ikDirection targetPos isLeftArm).z|
      (Real.sqrt ((ikDirection targetPos isLeftArm).x ^ 2 +
        (ikDirection targetPos isLeftArm).z ^ 2)) * 0.6

/-- The spread term of the shoulder-to-target direction:
`atan2(sideSign * direction.x, -direction.y)` with `sideSign = -1` for
the left arm and `1` for the right arm. -/
noncomputable def ikSpread (targetPos : Vec3) (isLeftArm : Bool) : ℝ :=
  atan2 ((if isLeftArm then (-1 : ℝ) else 1) * (ikDirection targetPos isLeftArm).x)
    (-(ikDirection targetPos isLeftArm).y)

/-- Embedding of `solveArmIK` (src/components/Avatar3D.tsx lines
414-485).  The upper-arm Euler is `(pitch + shoulderAngle * 0.4,
yaw * 1, spread ± 0.1)`, the forearm Euler is
`(-(π - elbowAngle) * 0.7, 0, 0)`, and the hand Euler is `(0, 0, 0)`. -/
noncomputable def solveArmIK (targetPos : Vec3) (isLeftArm : Bool) : ArmIK :=
  { upperArmRotation :=
      { x := ikPitch targetPos isLeftArm + ikShoulderAngle targetPos isLeftArm * 0.4
        y := ikYaw targetPos isLeftArm * (if isLeftArm then 1 else 1)
        z := ikSpread targetPos isLeftArm + (if isLeftArm then 0.1 else -0.1) }
    forearmRotation :=
      { x := -(Real.pi - ikElbowAngle targetPos isLeftArm) * 0.7
        y := 0
        z := 0 }
    handRotation := { x := 0, y := 0, z := 0 } }

/-- Sample frame with 21 all-zero landmarks per hand and no arm data. -/
def sampleAbsentArmFrame : HandFrame :=
  { label := "A"
    leftHand := List.replicate 21 zeroLandmark
    rightHand := List.replicate 21 zeroLandmark
    leftArm := none
    rightArm := none }

/-! ## Theorems -/

lemma isHandVisible_some_iff (l : List Landmark) :
    isHandVisible (some l) = true ↔ ∃ p ∈ l, p.1 ≠ 0 ∨ p.2.1 ≠ 0 := by
  by_cases h : l.length = 0
  · rw [List.length_eq_zero] at h
    subst h
    simp [isHandVisible]
  · simp [isHandVisible, h, List.any_eq_true, decide_eq_true_eq]

/-- C4: `isHandVisible` returns true iff some landmark has non-zero `x`
or non-zero `y`; `z` is never considered.  Consequently every all-zero
landmark set (and every set whose only non-zero coordinates are `z`
values) is reported not visible, and any set whose head landmark has
non-zero `x` or `y` is reported visible. -/
theorem C4_isHandVisible_iff :
    (∀ l : List Landmark, isHandVisible (some l) = true ↔
      ∃ p ∈ l, p.1 ≠ 0 ∨ p.2.1 ≠ 0)
    ∧ (∀ l : List Landmark, (∀ p ∈ l, p.1 = 0 ∧ p.2.1 = 0) →
        isHandVisible (some l) = false)
    ∧ (∀ (p : Landmark) (rest : List Landmark), p.1 ≠ 0 ∨ p.2.1 ≠ 0 →
        isHandVisible (some (p :: rest)) = true) := by
  refine ⟨isHandVisible_some_iff, ?_, ?_⟩
  · intro l hz
    cases hv : isHandVisible (some l) with
    | false => rfl
    | true =>
      obtain ⟨p, hp, hne⟩ := (isHandVisible_some_iff l).mp hv
      rcases hne with h | h
      · exact absurd (hz p hp).1 h
      · exact absurd (hz p hp).2 h
  · intro p rest hp
    exact (isHandVisible_some_iff (p :: rest)).mpr ⟨p, List.mem_cons_self p rest, hp⟩

/-- C4 witness: a set whose only non-zero coordinates are `z` values is
not visible; a set whose landmark 0 has non-zero `x` is visible. -/
theorem C4_isHandVisible_witness :
    isHandVisible (some [((0 : ℚ), 0, 5), ((0 : ℚ), 0, -3)]) = false
    ∧ isHandVisible (some [((1 : ℚ), 0, 0), ((0 : ℚ), 0, 0)]) = true :=
  ⟨C4_isHandVisible_iff.2.1 _ (by decide),
   C4_isHandVisible_iff.2.2 ((1 : ℚ), 0, 0) [((0 : ℚ), 0, 0)] (by norm_num)⟩

/-- C5: `normalizeCoordinates` maps the `i`-th point `(x, y, z)` to
`((1 - x - 0.5)·s, (1 - y - 0.5)·s, -z·s)`, maps `null` and empty
inputs to the empty list, and maps a wrist at `(0.3, 0.4, -0.1)` with
scale 3 to `(0.6, 0.3, 0.3)`. -/
theorem C5_normalizeCoordinates_pointwise :
    (∀ (l : List Landmark) (s : ℚ) (i : ℕ) (p : Landmark), l[i]? = some p →
      (normalizeCoordinates (some l) s)[i]? =
        some ((1 - p.1 - 1/2) * s, (1 - p.2.1 - 1/2) * s, -p.2.2 * s))
    ∧ (∀ s : ℚ, normalizeCoordinates none s = [])
    ∧ (∀ s : ℚ, normalizeCoordinates (some []) s = [])
    ∧ normalizeCoordinates (some [((3/10 : ℚ), 4/10, -(1/10))]) 3 =
        [((6/10 : ℚ), 3/10, 3/10)] := by
  refine ⟨?_, fun _ => rfl, fun _ => rfl, by norm_num [normalizeCoordinates]⟩
  intro l s i p hp
  have hi : i < l.length := by
    by_contra hge
    rw [List.getElem?_eq_none (by omega)] at hp
    exact Option.noConfusion hp
  have hlen : ¬ l.length = 0 := by omega
  simp only [normalizeCoordinates, if_neg hlen, List.getElem?_map, hp, Option.map_some']

/-- C5 witness: the scenario wrist `(0.3, 0.4, -0.1)` at scale 3. -/
theorem C5_normalizeCoordinates_witness :
    (normalizeCoordinates (some [((3/10 : ℚ), 4/10, -(1/10))]) 3)[0]? =
      some ((6/10 : ℚ), 3/10, 3/10) := by
  have h := C5_normalizeCoordinates_pointwise.1 [((3/10 : ℚ), 4/10, -(1/10))] 3 0
    ((3/10 : ℚ), 4/10, -(1/10)) rfl
  rw [h]
  norm_num

lemma advanceFrame_iterate (len : ℕ) :
    ∀ k, k ≤ len → (advanceFrame len)^[k] 0 = k % len := by
  intro k
  induction k with
  | zero => intro _; simp
  | succ n ih =>
    intro h
    rw [Function.iterate_succ_apply', ih (Nat.le_of_succ_le h)]
    have hn : n < len := h
    rw [Nat.mod_eq_of_lt hn]
    unfold advanceFrame
    rcases Nat.lt_or_ge (n + 1) len with hlt | hge
    · rw [if_neg (by omega), Nat.mod_eq_of_lt hlt]
    · have hEq : n + 1 = len := by omega
      rw [if_pos (by omega), hEq, Nat.mod_self]

/-- C8: a playback tick advances the cursor by exactly 1 modulo the
clip length (wrapping to 0 past the last index, never stopping), and
`len` ticks from cursor 0 return the cursor to 0. -/
theorem C8_loop_wraparound :
    (∀ len cursor : ℕ, cursor < len →
      advanceFrame len cursor = (cursor + 1) % len)
    ∧ (∀ len : ℕ, 0 < len → (advanceFrame len)^[len] 0 = 0) := by
  constructor
  · intro len cursor h
    unfold advanceFrame
    rcases Nat.lt_or_ge (cursor + 1) len with hlt | hge
    · rw [if_neg (by omega), Nat.mod_eq_of_lt hlt]
    · have hEq : cursor + 1 = len := by omega
      rw [if_pos (by omega), hEq, Nat.mod_self]
  · intro len _
    rw [advanceFrame_iterate len len (le_refl len), Nat.mod_self]

/-- C8 witness: a 10-frame clip wraps from cursor 9 to 0, and 10 ticks
from cursor 0 return to 0. -/
theorem C8_loop_wraparound_witness :
    advanceFrame 10 9 = (9 + 1) % 10 ∧ (advanceFrame 10)^[10] 0 = 0 :=
  ⟨C8_loop_wraparound.1 10 9 (by norm_num), C8_loop_wraparound.2 10 (by norm_num)⟩

/-- C10: every landmark index read by `calculateFingerCurl`,
`calculateThumbAbduction` and `calculateFingerSpread` is in bounds for
any landmark list with at least 21 entries, and this precondition is
not implied by `isHandVisible`: a single-entry list with non-zero `x`
is visible but has fewer than 21 entries. -/
theorem C10_finger_reads_in_bounds :
    (∀ i ∈ allFingerReads, ∀ l : List Landmark, 21 ≤ l.length → i < l.length)
    ∧ isHandVisible (some [((1 : ℚ), 0, 0)]) = true
    ∧ ¬ 21 ≤ ([((1 : ℚ), 0, 0)] : List Landmark).length := by
  refine ⟨?_, by decide, by decide⟩
  intro i hi l hl
  have hall : ∀ j ∈ allFingerReads, j < 21 := by decide
  have h21 : i < 21 := hall i hi
  omega

/-- C10 witness: index 20 (a fingertip) is read and is in bounds for a
21-entry landmark list. -/
theorem C10_finger_reads_witness :
    (20 : ℕ) < (List.replicate 21 zeroLandmark).length :=
  C10_finger_reads_in_bounds.1 20 (by decide) (List.replicate 21 zeroLandmark)
    (by simp)

lemma smoothIter_closed_form (f t : ℚ) :
    ∀ (n : ℕ) (s : ℚ), smoothIter f t n s - t = (1 - f) ^ n * (s - t) := by
  intro n
  induction n with
  | zero => intro s; simp [smoothIter]
  | succ k ih =>
    intro s
    have hstep : smoothIter f t (k + 1) s = lerp (smoothIter f t k s) t f := by
      simp only [smoothIter, Function.iterate_succ_apply']
    have hk := ih s
    rw [hstep]
    unfold lerp
    calc (1 - f) * smoothIter f t k s + f * t - t
        = (1 - f) * (smoothIter f t k s - t) := by ring
      _ = (1 - f) * ((1 - f) ^ k * (s - t)) := by rw [hk]
      _ = (1 - f) ^ (k + 1) * (s - t) := by ring

/-- C6 counterexample: there is no iteration count `N` depending only
on the factor after which the smoothed value is within `1e-6` of the
target from every start — with factor `0.2` and target `0`, the start
`5^N` is still at distance `4^N ≥ 1` after `N` iterations. -/
theorem C6_no_factor_only_bound :
    ¬ ∃ N : ℕ, ∀ start : ℚ, |smoothIter (1/5) 0 N start - 0| ≤ 1/1000000 := by
  rintro ⟨N, hN⟩
  have h := hN (5 ^ N)
  have hc := smoothIter_closed_form (1/5) 0 N (5 ^ N)
  have hval : smoothIter (1/5) 0 N (5 ^ N) - 0 = 4 ^ N := by
    rw [hc]
    rw [show (1 : ℚ) - 1/5 = 4/5 by norm_num, sub_zero, div_pow]
    field_simp
  rw [hval] at h
  have h4 : (1 : ℚ) ≤ 4 ^ N := one_le_pow₀ (by norm_num)
  rw [abs_of_nonneg (by linarith)] at h
  linarith

/-- C6 (amended): the smoothing step is
`smooth(p, t, f) = p + (t - p)·f` (equal to the code's
`THREE.MathUtils.lerp`), iterating it with a constant target satisfies
the closed form `xₙ - t = (1-f)ⁿ·(x₀ - t)`, converges monotonically
with no overshoot for every factor in `(0, 1]`, and is within `1e-6`
of the target after `N` iterations where `N` depends on the factor and
the initial distance: for factor `0.2` and initial distance at most 1,
`N = 62` (≈ the claimed ~60) suffices. -/
theorem C6_smoother_convergence :
    (∀ p t f : ℚ, lerp p t f = p + (t - p) * f)
    ∧ (∀ f : ℚ, 0 < f → f ≤ 1 → ∀ s t : ℚ, ∀ n : ℕ,
        smoothIter f t n s - t = (1 - f) ^ n * (s - t)
        ∧ |smoothIter f t (n + 1) s - t| ≤ |smoothIter f t n s - t|
        ∧ 0 ≤ (smoothIter f t n s - t) * (s - t))
    ∧ (∀ s t : ℚ, |s - t| ≤ 1 →
        |smoothIter (1/5) t 62 s - t| ≤ 1/1000000) := by
  refine ⟨fun p t f => by unfold lerp; ring, ?_, ?_⟩
  · intro f hf0 hf1 s t n
    have hf : 0 ≤ 1 - f := by linarith
    refine ⟨smoothIter_closed_form f t n s, ?_, ?_⟩
    · rw [smoothIter_closed_form f t (n + 1) s, smoothIter_closed_form f t n s,
        pow_succ, mul_comm ((1 - f) ^ n) (1 - f), mul_assoc, abs_mul,
        abs_of_nonneg hf]
      have hx : (0 : ℚ) ≤ |(1 - f) ^ n * (s - t)| := abs_nonneg _
      nlinarith
    · rw [smoothIter_closed_form f t n s, mul_assoc]
      have : (0 : ℚ) ≤ (s - t) * (s - t) := mul_self_nonneg _
      positivity
  · intro s t hst
    rw [smoothIter_closed_form (1/5) t 62 s, abs_mul,
      show (1 : ℚ) - 1/5 = 4/5 by norm_num, abs_pow,
      abs_of_nonneg (by norm_num : (0 : ℚ) ≤ 4/5)]
    have hpow : ((4 : ℚ)/5) ^ 62 ≤ 17/10000000 := by
      rw [div_pow, div_le_div_iff₀ (by positivity) (by norm_num)]
      norm_num
    have habs : (0 : ℚ) ≤ |s - t| := abs_nonneg _
    nlinarith

/-- C6 witness: the amended convergence facts at factor `1/2`, start
`3`, target `7`, and the 62-iteration bound from start `1`, target `0`. -/
theorem C6_smoother_convergence_witness :
    lerp 3 7 (1/2) = 3 + (7 - 3) * (1/2)
    ∧ (smoothIter (1/2) 7 1 3 - 7 = (1 - 1/2) ^ 1 * (3 - 7)
        ∧ |smoothIter (1/2) 7 2 3 - 7| ≤ |smoothIter (1/2) 7 1 3 - 7|
        ∧ 0 ≤ (smoothIter (1/2) 7 1 3 - 7) * (3 - 7))
    ∧ |smoothIter (1/5) 0 62 1 - 0| ≤ 1/1000000 :=
  ⟨C6_smoother_convergence.1 3 7 (1/2),
   C6_smoother_convergence.2.1 (1/2) (by norm_num) (by norm_num) 3 7 1,
   C6_smoother_convergence.2.2 1 0 (by norm_num)⟩

lemma range21_map_reconstruct (l : List Landmark) (h : l.length = 21) :
    (List.range 21).map (fun i =>
      ((l[i]?.getD zeroLandmark).1, (l[i]?.getD zeroLandmark).2.1,
       (l[i]?.getD zeroLandmark).2.2)) = l := by
  apply List.ext_getElem
  · simp [h]
  · intro i h1 h2
    simp only [List.getElem_map, List.getElem_range]
    rw [List.getElem?_eq_getElem (by omega : i < l.length)]
    rfl

/-- C9 counterexample: a frame whose arm landmarks are absent does NOT
round-trip to a frame with an absent arm — the export zero-fills the
always-present arm columns, so re-parsing yields a defined all-zero
arm triple instead of `undefined`. -/
theorem C9_roundTrip_counterexample :
    sampleAbsentArmFrame.leftArm = none
    ∧ (roundTrip sampleAbsentArmFrame).leftArm = some zeroArm := by
  constructor
  · rfl
  · simp [roundTrip, parseCSVRow, exportRow, exportCells, sampleAbsentArmFrame,
      numOr0, zeroArm, zeroLandmark]

/-- C9 (amended): writing a frame through the tabular export and
re-parsing it reproduces the label and both 21-entry hand landmark
lists exactly, and reproduces the values of a present arm, but an
absent arm comes back as a defined all-zero arm triple (the export
always writes the 18 arm columns, zero-filled).  The parser itself
does map missing arm columns to an absent arm. -/
theorem C9_roundTrip_amended :
    (∀ f : HandFrame, f.leftHand.length = 21 → f.rightHand.length = 21 →
      roundTrip f = { label := f.label, leftHand := f.leftHand,
                      rightHand := f.rightHand,
                      leftArm := some (f.leftArm.getD zeroArm),
                      rightArm := some (f.rightArm.getD zeroArm) })
    ∧ (∀ r : CSVRow, r.cells ColKey.LAshoulderX = none →
        (parseCSVRow r).leftArm = none)
    ∧ (∀ r : CSVRow, r.cells ColKey.RAshoulderX = none →
        (parseCSVRow r).rightArm = none) := by
  refine ⟨?_, ?_, ?_⟩
  · intro f h1 h2
    have hL : ∀ i ∈ List.range 21,
        ((numOr0 (exportCells f (ColKey.Lx i)), numOr0 (exportCells f (ColKey.Ly i)),
          numOr0 (exportCells f (ColKey.Lz i))) : Landmark) =
        ((f.leftHand[i]?.getD zeroLandmark).1, (f.leftHand[i]?.getD zeroLandmark).2.1,
         (f.leftHand[i]?.getD zeroLandmark).2.2) := by
      intro i hi
      have hi21 : i < 21 := List.mem_range.mp hi
      simp [exportCells, numOr0, hi21]
    have hR : ∀ i ∈ List.range 21,
        ((numOr0 (exportCells f (ColKey.Rx i)), numOr0 (exportCells f (ColKey.Ry i)),
          numOr0 (exportCells f (ColKey.Rz i))) : Landmark) =
        ((f.rightHand[i]?.getD zeroLandmark).1, (f.rightHand[i]?.getD zeroLandmark).2.1,
         (f.rightHand[i]?.getD zeroLandmark).2.2) := by
      intro i hi
      have hi21 : i < 21 := List.mem_range.mp hi
      simp [exportCells, numOr0, hi21]
    simp only [roundTrip, parseCSVRow, exportRow, HandFrame.mk.injEq]
    refine ⟨by trivial, ?_, ?_, ?_, ?_⟩
    · rw [List.map_congr_left hL, range21_map_reconstruct f.leftHand h1]
    · rw [List.map_congr_left hR, range21_map_reconstruct f.rightHand h2]
    · cases hl : f.leftArm with
      | none => simp [exportCells, numOr0, hl, zeroArm, zeroLandmark]
      | some a => simp [exportCells, numOr0, hl]
    · cases hr : f.rightArm with
      | none => simp [exportCells, numOr0, hr, zeroArm, zeroLandmark]
      | some a => simp [exportCells, numOr0, hr]
  · intro r hr
    simp [parseCSVRow, hr]
  · intro r hr
    simp [parseCSVRow, hr]

/-- C9 witness: the amended round-trip equality evaluated at a concrete
frame with 21-entry hands and absent arms. -/
theorem C9_roundTrip_witness :
    roundTrip sampleAbsentArmFrame =
      { label := sampleAbsentArmFrame.label,
        leftHand := sampleAbsentArmFrame.leftHand,
        rightHand := sampleAbsentArmFrame.rightHand,
        leftArm := some (sampleAbsentArmFrame.leftArm.getD zeroArm),
        rightArm := some (sampleAbsentArmFrame.rightArm.getD zeroArm) } :=
  C9_roundTrip_amended.1 sampleAbsentArmFrame (by simp [sampleAbsentArmFrame])
    (by simp [sampleAbsentArmFrame])

lemma abs_arctan_le_half_pi (z : ℝ) : |Real.arctan z| ≤ Real.pi / 2 := by
  rw [abs_le]
  exact ⟨le_of_lt (Real.neg_pi_div_two_lt_arctan z),
    le_of_lt (Real.arctan_lt_pi_div_two z)⟩

lemma atan2_abs_le_pi (y x : ℝ) : |atan2 y x| ≤ Real.pi := by
  have hpi := Real.pi_pos
  unfold atan2
  split_ifs with h1 h2 h3 h4 h5
  · exact le_trans (abs_arctan_le_half_pi _) (by linarith)
  · have hyx : y / x ≤ 0 := div_nonpos_of_nonneg_of_nonpos h3 (le_of_lt h2)
    have h0 : Real.arctan (y / x) ≤ 0 := by
      have := Real.arctan_strictMono.monotone hyx
      rwa [Real.arctan_zero] at this
    have hlow := Real.neg_pi_div_two_lt_arctan (y / x)
    rw [abs_le]
    constructor <;> linarith
  · have hyx : 0 < y / x := div_pos_iff.mpr (Or.inr ⟨by linarith, h2⟩)
    have h0 : 0 ≤ Real.arctan (y / x) := by
      have := Real.arctan_strictMono.monotone (le_of_lt hyx)
      rwa [Real.arctan_zero] at this
    have hhigh := Real.arctan_lt_pi_div_two (y / x)
    rw [abs_le]
    constructor <;> linarith
  · rw [abs_of_pos (by linarith)]
    linarith
  · rw [abs_neg, abs_of_pos (by linarith)]
    linarith
  · rw [abs_zero]
    linarith

lemma AVATAR_CONFIG_shoulderWidth : AVATAR_CONFIG.shoulderWidth = 0.18 := rfl

lemma AVATAR_CONFIG_shoulderHeight : AVATAR_CONFIG.shoulderHeight = 0.35 := rfl

lemma AVATAR_CONFIG_upperArmLength : AVATAR_CONFIG.upperArmLength = 0.28 := rfl

lemma AVATAR_CONFIG_forearmLength : AVATAR_CONFIG.forearmLength = 0.25 := rfl

/-- C1: for every target wrist position (including a target at the
shoulder and targets beyond full reach) and for both sides,
`solveArmIK` is total and returns rotations all of whose components are
bounded real numbers (absolute value at most 5): every `acos`/`asin`
argument is clamped, the clamped distance keeps the law-of-cosines
denominators non-zero, and `THREE`'s `normalize` guards the zero
vector, so no NaN and no exception can arise. -/
theorem C1_solveArmIK_output_finite :
    ∀ (targetPos : Vec3) (isLeftArm : Bool),
      |(solveArmIK targetPos isLeftArm).upperArmRotation.x| ≤ 5
      ∧ |(solveArmIK targetPos isLeftArm).upperArmRotation.y| ≤ 5
      ∧ |(solveArmIK targetPos isLeftArm).upperArmRotation.z| ≤ 5
      ∧ |(solveArmIK targetPos isLeftArm).forearmRotation.x| ≤ 5
      ∧ (solveArmIK targetPos isLeftArm).forearmRotation.y = 0
      ∧ (solveArmIK targetPos isLeftArm).forearmRotation.z = 0
      ∧ (solveArmIK targetPos isLeftArm).handRotation.x = 0
      ∧ (solveArmIK targetPos isLeftArm).handRotation.y = 0
      ∧ (solveArmIK targetPos isLeftArm).handRotation.z = 0 := by
  intro t side
  have hpi4 := Real.pi_le_four
  have hpi0 := Real.pi_pos
  have hpitch : |ikPitch t side| ≤ Real.pi / 2 := by
    unfold ikPitch
    rw [abs_le]
    exact ⟨Real.neg_pi_div_two_le_arcsin _, Real.arcsin_le_pi_div_two _⟩
  have hpitch' := abs_le.mp hpitch
  have hsa0 : 0 ≤ ikShoulderAngle t side := by
    unfold ikShoulderAngle
    exact Real.arccos_nonneg _
  have hsa : ikShoulderAngle t side ≤ Real.pi := by
    unfold ikShoulderAngle
    exact Real.arccos_le_pi _
  have hea0 : 0 ≤ ikElbowAngle t side := by
    unfold ikElbowAngle
    exact Real.arccos_nonneg _
  have hea : ikElbowAngle t side ≤ Real.pi := by
    unfold ikElbowAngle
    exact Real.arccos_le_pi _
  have hyaw : |ikYaw t side| ≤ Real.pi * 0.6 := by
    unfold ikYaw
    rw [abs_mul, abs_of_nonneg (by norm_num : (0 : ℝ) ≤ 0.6)]
    exact mul_le_mul_of_nonneg_right (atan2_abs_le_pi _ _) (by norm_num)
  have hyaw' := abs_le.mp hyaw
  have hspread : |ikSpread t side| ≤ Real.pi := by
    unfold ikSpread
    exact atan2_abs_le_pi _ _
  have hspread' := abs_le.mp hspread
  simp only [solveArmIK]
  refine ⟨?_, ?_, ?_, ?_, by trivial, by trivial, by trivial, by trivial, by trivial⟩
  · rw [abs_le]
    constructor <;> linarith
  · rw [ite_self, mul_one, abs_le]
    constructor <;> linarith
  · cases side
    · rw [if_neg (by simp), abs_le]
      constructor <;> linarith
    · rw [if_pos rfl, abs_le]
      constructor <;> linarith
  · rw [abs_le]
    constructor <;> nlinarith

lemma ikRawDistance_at_left_shoulder :
    ikRawDistance ⟨-0.18, 0.35, 0⟩ true = 0 := by
  unfold ikRawDistance ikShoulderPos subV lengthV
  simp only [AVATAR_CONFIG_shoulderWidth, AVATAR_CONFIG_shoulderHeight, if_pos rfl]
  norm_num

lemma ikDistance_at_left_shoulder :
    ikDistance ⟨-0.18, 0.35, 0⟩ true = 0.015 := by
  unfold ikDistance clamp
  rw [ikRawDistance_at_left_shoulder]
  simp only [AVATAR_CONFIG_upperArmLength, AVATAR_CONFIG_forearmLength]
  rw [abs_of_pos (by norm_num : (0 : ℝ) < 0.28 - 0.25)]
  rw [min_eq_right (by norm_num : (0 : ℝ) ≤ (0.28 + 0.25) * 0.95)]
  rw [max_eq_left (by norm_num : (0 : ℝ) ≤ (0.28 - 0.25) * 0.5)]
  norm_num

/-- C2 counterexample: for a target exactly at the left shoulder the
distance actually used is `0.015 = 0.5·|upperLen - lowerLen|`, which is
strictly below the minimum reachable distance
`|upperLen - lowerLen| = 0.03` asserted by the claim. -/
theorem C2_min_clamp_counterexample :
    ikRawDistance ⟨-0.18, 0.35, 0⟩ true = 0
    ∧ ikDistance ⟨-0.18, 0.35, 0⟩ true = 0.015
    ∧ ¬ |AVATAR_CONFIG.upperArmLength - AVATAR_CONFIG.forearmLength| ≤
        ikDistance ⟨-0.18, 0.35, 0⟩ true := by
  refine ⟨ikRawDistance_at_left_shoulder, ikDistance_at_left_shoulder, ?_⟩
  rw [ikDistance_at_left_shoulder]
  simp only [AVATAR_CONFIG_upperArmLength, AVATAR_CONFIG_forearmLength]
  rw [abs_of_pos (by norm_num : (0 : ℝ) < 0.28 - 0.25)]
  norm_num

/-- C2 (amended): before the law-of-cosines step the shoulder-to-target
length is clamped to `[0.5·|upperLen - lowerLen|, 0.95·(upperLen +
lowerLen)]`; for every target (including one exactly at the shoulder)
the distance actually used is strictly positive (no division by zero)
and at most the full reach, but its lower bound is half of
`|upperLen - lowerLen|`, not `|upperLen - lowerLen|` itself. -/
theorem C2_distance_clamp :
    ∀ (targetPos : Vec3) (isLeftArm : Bool),
      |AVATAR_CONFIG.upperArmLength - AVATAR_CONFIG.forearmLength| * 0.5 ≤
          ikDistance targetPos isLeftArm
      ∧ ikDistance targetPos isLeftArm ≤
          (AVATAR_CONFIG.upperArmLength + AVATAR_CONFIG.forearmLength) * 0.95
      ∧ 0 < ikDistance targetPos isLeftArm
      ∧ ikDistance targetPos isLeftArm ≤
          AVATAR_CONFIG.upperArmLength + AVATAR_CONFIG.forearmLength := by
  intro t side
  unfold ikDistance clamp
  refine ⟨le_max_left _ _, ?_, ?_, ?_⟩
  · refine max_le ?_ (min_le_left _ _)
    simp only [AVATAR_CONFIG_upperArmLength, AVATAR_CONFIG_forearmLength]
    rw [abs_of_pos (by norm_num : (0 : ℝ) < 0.28 - 0.25)]
    norm_num
  · refine lt_of_lt_of_le ?_ (le_max_left _ _)
    simp only [AVATAR_CONFIG_upperArmLength, AVATAR_CONFIG_forearmLength]
    rw [abs_of_pos (by norm_num : (0 : ℝ) < 0.28 - 0.25)]
    norm_num
  · refine le_trans (max_le ?_ (min_le_left _ _)) ?_ <;>
      simp only [AVATAR_CONFIG_upperArmLength, AVATAR_CONFIG_forearmLength]
    · rw [abs_of_pos (by norm_num : (0 : ℝ) < 0.28 - 0.25)]
      norm_num
    · norm_num

lemma ikElbowAngle_at_left_shoulder :
    ikElbowAngle ⟨-0.18, 0.35, 0⟩ true = 0 := by
  unfold ikElbowAngle clamp
  rw [ikDistance_at_left_shoulder]
  simp only [AVATAR_CONFIG_upperArmLength, AVATAR_CONFIG_forearmLength]
  rw [min_eq_left (by norm_num :
    (1 : ℝ) ≤ (0.28 ^ 2 + 0.25 ^ 2 - 0.015 ^ 2) / (2 * 0.28 * 0.25))]
  rw [max_eq_right (by norm_num : (-1 : ℝ) ≤ 1)]
  exact Real.arccos_one

/-- C3 counterexample: at a target exactly at the left shoulder the
elbow angle is `0`, so the claimed bend-axis value `-(π - elbowAngle) =
-π` differs from the returned forearm `x` component `-0.7·π`. -/
theorem C3_forearm_bend_counterexample :
    (solveArmIK ⟨-0.18, 0.35, 0⟩ true).forearmRotation.x ≠
      -(Real.pi - ikElbowAngle ⟨-0.18, 0.35, 0⟩ true) := by
  simp only [solveArmIK]
  rw [ikElbowAngle_at_left_shoulder, sub_zero]
  intro h
  have hp := Real.pi_pos
  linarith

/-- C3 (amended): the elbow interior angle is
`acos(clamp((upperLen² + lowerLen² - d²)/(2·upperLen·lowerLen), -1, 1))`
at the clamped distance `d`, it lies in `[0, π]`, and the bend-axis
(`x`) component of the returned forearm rotation is
`-(π - elbowAngle)·0.7` — the negated bend scaled by `0.7`, not
`-(π - elbowAngle)` itself. -/
theorem C3_elbow_law_of_cosines :
    ∀ (targetPos : Vec3) (isLeftArm : Bool),
      ikElbowAngle targetPos isLeftArm =
        Real.arccos (clamp
          ((AVATAR_CONFIG.upperArmLength ^ 2 + AVATAR_CONFIG.forearmLength ^ 2 -
              ikDistance targetPos isLeftArm ^ 2) /
            (2 * AVATAR_CONFIG.upperArmLength * AVATAR_CONFIG.forearmLength))
          (-1) 1)
      ∧ (solveArmIK targetPos isLeftArm).forearmRotation.x =
          -(Real.pi - ikElbowAngle targetPos isLeftArm) * 0.7
      ∧ 0 ≤ ikElbowAngle targetPos isLeftArm
      ∧ ikElbowAngle targetPos isLeftArm ≤ Real.pi := by
  intro t side
  refine ⟨rfl, rfl, ?_, ?_⟩
  · unfold ikElbowAngle
    exact Real.arccos_nonneg _
  · unfold ikElbowAngle
    exact Real.arccos_le_pi _

lemma ikShoulderPos_left : ikShoulderPos true = ⟨-(0.18 : ℝ), 0.35, 0⟩ := rfl

lemma ikShoulderPos_right : ikShoulderPos false = ⟨(0.18 : ℝ), 0.35, 0⟩ := rfl

lemma subV_shoulder_left (tx ty tz : ℝ) :
    subV ⟨tx, ty, tz⟩ (ikShoulderPos true) = ⟨tx + 0.18, ty - 0.35, tz⟩ := by
  unfold subV
  rw [ikShoulderPos_left]
  dsimp only
  rw [Vec3.mk.injEq]
  refine ⟨by ring, by ring, by ring⟩

lemma subV_shoulder_right (tx ty tz : ℝ) :
    subV ⟨tx, ty, tz⟩ (ikShoulderPos false) = ⟨tx - 0.18, ty - 0.35, tz⟩ := by
  unfold subV
  rw [ikShoulderPos_right]
  dsimp only
  rw [Vec3.mk.injEq]
  refine ⟨by ring, by ring, by ring⟩

lemma lengthV_mk (a b c : ℝ) :
    lengthV ⟨a, b, c⟩ = Real.sqrt (a ^ 2 + b ^ 2 + c ^ 2) := rfl

lemma normalizeV_mk (a b c : ℝ) :
    normalizeV ⟨a, b, c⟩ =
      ⟨a / (if lengthV ⟨a, b, c⟩ = 0 then 1 else lengthV ⟨a, b, c⟩),
       b / (if lengthV ⟨a, b, c⟩ = 0 then 1 else lengthV ⟨a, b, c⟩),
       c / (if lengthV ⟨a, b, c⟩ = 0 then 1 else lengthV ⟨a, b, c⟩)⟩ := rfl

lemma lengthV_mirror (a b c : ℝ) : lengthV ⟨-a, b, c⟩ = lengthV ⟨a, b, c⟩ := by
  rw [lengthV_mk, lengthV_mk]
  congr 1
  ring

lemma mirror_rawDistance (tx ty tz : ℝ) :
    ikRawDistance ⟨-tx, ty, tz⟩ false = ikRawDistance ⟨tx, ty, tz⟩ true := by
  unfold ikRawDistance
  rw [subV_shoulder_right, subV_shoulder_left,
    show (-tx - 0.18 : ℝ) = -(tx + 0.18) by ring, lengthV_mirror]

lemma mirror_direction (tx ty tz : ℝ) :
    ikDirection ⟨-tx, ty, tz⟩ false =
      ⟨-(ikDirection ⟨tx, ty, tz⟩ true).x, (ikDirection ⟨tx, ty, tz⟩ true).y,
       (ikDirection ⟨tx, ty, tz⟩ true).z⟩ := by
  unfold ikDirection
  rw [subV_shoulder_right, subV_shoulder_left,
    show (-tx - 0.18 : ℝ) = -(tx + 0.18) by ring,
    normalizeV_mk, normalizeV_mk, lengthV_mirror]
  dsimp only
  rw [Vec3.mk.injEq]
  refine ⟨by ring, rfl, rfl⟩

lemma arctan_four_fifths_pos : 0 < Real.arctan 0.8 := by
  have h := Real.arctan_strictMono (show (0 : ℝ) < 0.8 by norm_num)
  rwa [Real.arctan_zero] at h

lemma ikDirection_sample_left :
    ikDirection ⟨0.12, 0.35, 0.4⟩ true = ⟨0.6, 0, 0.8⟩ := by
  unfold ikDirection
  rw [subV_shoulder_left,
    show ((0.12 : ℝ) + 0.18) = 0.3 by norm_num,
    show ((0.35 : ℝ) - 0.35) = 0 by norm_num, normalizeV_mk]
  have hlen : lengthV ⟨(0.3 : ℝ), 0, 0.4⟩ = 0.5 := by
    rw [lengthV_mk, show ((0.3 : ℝ) ^ 2 + 0 ^ 2 + 0.4 ^ 2) = 0.5 ^ 2 by norm_num]
    exact Real.sqrt_sq (by norm_num)
  rw [hlen, if_neg (by norm_num : (0.5 : ℝ) ≠ 0), Vec3.mk.injEq]
  norm_num

lemma ikDirection_sample_right :
    ikDirection ⟨-0.12, 0.35, 0.4⟩ false = ⟨-0.6, 0, 0.8⟩ := by
  have h := mirror_direction 0.12 0.35 0.4
  rw [h, ikDirection_sample_left]

lemma ikYaw_sample_left :
    ikYaw ⟨0.12, 0.35, 0.4⟩ true = Real.arctan 0.8 * 0.6 := by
  unfold ikYaw
  rw [ikDirection_sample_left]
  show atan2 |(0.8 : ℝ)| (Real.sqrt ((0.6 : ℝ) ^ 2 + (0.8 : ℝ) ^ 2)) * 0.6 =
    Real.arctan 0.8 * 0.6
  rw [abs_of_pos (by norm_num : (0 : ℝ) < 0.8),
    show ((0.6 : ℝ) ^ 2 + (0.8 : ℝ) ^ 2) = 1 by norm_num, Real.sqrt_one]
  unfold atan2
  rw [if_pos (by norm_num : (0 : ℝ) < 1), div_one]

lemma ikYaw_sample_right :
    ikYaw ⟨-0.12, 0.35, 0.4⟩ false = Real.arctan 0.8 * 0.6 := by
  unfold ikYaw
  rw [ikDirection_sample_right]
  show atan2 |(0.8 : ℝ)| (Real.sqrt ((-0.6 : ℝ) ^ 2 + (0.8 : ℝ) ^ 2)) * 0.6 =
    Real.arctan 0.8 * 0.6
  rw [abs_of_pos (by norm_num : (0 : ℝ) < 0.8),
    show ((-0.6 : ℝ) ^ 2 + (0.8 : ℝ) ^ 2) = 1 by norm_num, Real.sqrt_one]
  unfold atan2
  rw [if_pos (by norm_num : (0 : ℝ) < 1), div_one]

/-- C7 counterexample: for the target `(0.12, 0.35, 0.4)` and its
x-mirrored counterpart `(-0.12, 0.35, 0.4)`, the yaw (`y`) component of
the returned upper-arm rotation is the same non-zero value
`arctan(0.8)·0.6` on both sides — it does not invert in sign. -/
theorem C7_mirror_counterexample :
    ¬ ((solveArmIK ⟨0.12, 0.35, 0.4⟩ true).upperArmRotation.y =
        -(solveArmIK ⟨-0.12, 0.35, 0.4⟩ false).upperArmRotation.y) := by
  simp only [solveArmIK, ite_self, mul_one]
  rw [ikYaw_sample_left, ikYaw_sample_right]
  intro h
  have h8 := arctan_four_fifths_pos
  linarith

/-- C7 (amended): for a target and its x-mirrored counterpart,
`solveArmIK` returns the same pitch (`x`), the same yaw (`y`), the same
spread term on `z` (only the constant `±0.1` offset differs:
`z_left - 0.1 = z_right + 0.1`), and the same forearm rotation; the
sign inversion of the spread for the right arm is applied by the
caller (`useFrame` negates `z` when writing the right-arm bone), not
inside `solveArmIK`. -/
theorem C7_mirror_structure :
    ∀ tx ty tz : ℝ,
      (solveArmIK ⟨tx, ty, tz⟩ true).upperArmRotation.x =
          (solveArmIK ⟨-tx, ty, tz⟩ false).upperArmRotation.x
      ∧ (solveArmIK ⟨tx, ty, tz⟩ true).upperArmRotation.y =
          (solveArmIK ⟨-tx, ty, tz⟩ false).upperArmRotation.y
      ∧ (solveArmIK ⟨tx, ty, tz⟩ true).upperArmRotation.z - 0.1 =
          (solveArmIK ⟨-tx, ty, tz⟩ false).upperArmRotation.z + 0.1
      ∧ (solveArmIK ⟨tx, ty, tz⟩ true).forearmRotation.x =
          (solveArmIK ⟨-tx, ty, tz⟩ false).forearmRotation.x := by
  intro tx ty tz
  have hdist : ikDistance ⟨-tx, ty, tz⟩ false = ikDistance ⟨tx, ty, tz⟩ true := by
    unfold ikDistance
    rw [mirror_rawDistance]
  have hdir := mirror_direction tx ty tz
  have hpitch : ikPitch ⟨-tx, ty, tz⟩ false = ikPitch ⟨tx, ty, tz⟩ true := by
    unfold ikPitch
    rw [hdir]
  have hsa : ikShoulderAngle ⟨-tx, ty, tz⟩ false =
      ikShoulderAngle ⟨tx, ty, tz⟩ true := by
    unfold ikShoulderAngle
    rw [hdist]
  have hea : ikElbowAngle ⟨-tx, ty, tz⟩ false =
      ikElbowAngle ⟨tx, ty, tz⟩ true := by
    unfold ikElbowAngle
    rw [hdist]
  have hyaw : ikYaw ⟨-tx, ty, tz⟩ false = ikYaw ⟨tx, ty, tz⟩ true := by
    unfold ikYaw
    rw [hdir]
    show atan2 |(ikDirection ⟨tx, ty, tz⟩ true).z|
        (Real.sqrt ((-(ikDirection ⟨tx, ty, tz⟩ true).x) ^ 2 +
          (ikDirection ⟨tx, ty, tz⟩ true).z ^ 2)) * 0.6 = _
    rw [neg_sq]
  have hs : ikSpread ⟨-tx, ty, tz⟩ false = ikSpread ⟨tx, ty, tz⟩ true := by
    unfold ikSpread
    rw [hdir]
    have h1 : (if (false : Bool) then (-1 : ℝ) else 1) = 1 := rfl
    have h2 : (if (true : Bool) then (-1 : ℝ) else 1) = -1 := rfl
    dsimp only
    rw [h1, h2]
    congr 1
    ring
  simp only [solveArmIK, ite_self, mul_one]
  refine ⟨?_, ?_, ?_, ?_⟩
  · rw [hpitch, hsa]
  · rw [hyaw]
  · show ikSpread ⟨tx, ty, tz⟩ true + 0.1 - 0.1 =
      ikSpread ⟨-tx, ty, tz⟩ false + -0.1 + 0.1
    rw [hs]
    ring
  · rw [hea]

end GestureWeaver
